import Mathlib

/-!
Verification of the Hedera x402 payment facilitator frontend
(`agent101`): a shallow embedding of the payment-protocol core
(transaction builders, the create-payload endpoint, the key-import
validation, and the client payment state machines), with theorems
checking the natural-language specification against it.

Machine integers from the JavaScript source are modelled as `Option Int`:
`some n` is an ordinary number, `none` is JavaScript `NaN`.
External library calls (such as ECDSA key parsing, address recovery and
account-id parsing from the Hedera and ethers SDKs) are abstracted as
function parameters of the route model.
-/

namespace Agent101

/-! ## JavaScript numeric and string primitives -/

/-- JavaScript number restricted to the integers that appear in this
code base: `none` models `NaN`. -/
abbrev JsNum := Option Int

/-- JavaScript unary minus: `-NaN = NaN`. -/
def jsNeg (a : JsNum) : JsNum := a.map (fun n => -n)

/-- JavaScript addition: `NaN` propagates. -/
def jsAdd (a b : JsNum) : JsNum :=
  match a, b with
  | some x, some y => some (x + y)
  | _, _ => none

/-- Decimal digit value of a character, if it is one. -/
def digitVal (c : Char) : Option Nat :=
  if c.isDigit then some (c.toNat - 48) else none

/-- Hexadecimal digit value of a character, if it is one. -/
def hexDigitVal (c : Char) : Option Nat :=
  if c.isDigit then some (c.toNat - 48)
  else if 'a' ≤ c ∧ c ≤ 'f' then some (c.toNat - 87)
  else if 'A' ≤ c ∧ c ≤ 'F' then some (c.toNat - 55)
  else none

/-- Longest leading run of digits of the given kind, as values, with the
rest of the input. -/
def takeDigits (dv : Char → Option Nat) : List Char → List Nat × List Char
  | [] => ([], [])
  | c :: t =>
    match dv c with
    | some d =>
      let r := takeDigits dv t
      (d :: r.1, r.2)
    | none => ([], c :: t)

/-- Value of a digit list in the given base, most significant first. -/
def digitsToNat (base : Nat) (ds : List Nat) : Nat :=
  ds.foldl (fun a d => a * base + d) 0

/-- JavaScript whitespace test for the characters relevant here. -/
def isJsSpace (c : Char) : Bool :=
  c = ' ' || c = '\t' || c = '\n' || c = '\r'

/-- JavaScript `String.prototype.trim` for ASCII input. -/
def jsTrim (s : String) : String :=
  String.mk (((s.data.dropWhile isJsSpace).reverse.dropWhile isJsSpace).reverse)

/-- ASCII lower-casing of one character. -/
def toLowerChar (c : Char) : Char :=
  if 'A' ≤ c ∧ c ≤ 'Z' then Char.ofNat (c.toNat + 32) else c

/-- JavaScript `String.prototype.toLowerCase` for ASCII input. -/
def jsToLower (s : String) : String := String.mk (s.data.map toLowerChar)

/-- Leading sign of the numeral, with the remaining characters. -/
def signSplit : List Char → Int × List Char
  | '-' :: t => (-1, t)
  | '+' :: t => (1, t)
  | cs => (1, cs)

/-- Longest run of leading decimal digits as a value; none at all is `NaN`. -/
def parseDigits (cs : List Char) : Option Nat :=
  let r := takeDigits digitVal cs
  if r.1.isEmpty then none else some (digitsToNat 10 r.1)

/-- Longest run of leading hexadecimal digits as a value. -/
def parseHexDigits (cs : List Char) : Option Nat :=
  let r := takeDigits hexDigitVal cs
  if r.1.isEmpty then none else some (digitsToNat 16 r.1)

/-- A `0x`/`0X` literal is read as hexadecimal, anything else as decimal. -/
def parseBody : List Char → Option Nat
  | '0' :: 'x' :: t => parseHexDigits t
  | '0' :: 'X' :: t => parseHexDigits t
  | cs => parseDigits cs

/-- `parseInt(s)` with no radix argument, as in the source: skip leading
whitespace, optional sign, then either a `0x`/`0X` hexadecimal literal or
the longest leading run of decimal digits; no digits means `NaN`. -/
def parseIntChars (cs : List Char) : JsNum :=
  let s := signSplit (cs.dropWhile isJsSpace)
  (parseBody s.2).map (fun n => s.1 * n)

/-- `parseInt` on a string. -/
def parseIntJS (s : String) : JsNum := parseIntChars s.data

/-- The first character exists, is not a decimal digit, and is not an
`x`/`X` (so the split cannot be part of a `0x` literal). -/
def restBlocked : List Char → Bool
  | [] => false
  | c :: _ => !c.isDigit && c != 'x' && c != 'X'

/-- The first character exists and can start no numeral: not a digit,
not a sign, not whitespace. -/
def leadingNonNumeric : List Char → Bool
  | [] => false
  | c :: _ => !c.isDigit && c != '+' && c != '-' && !isJsSpace c

/-- Decimal value of a digit list, as an integer. -/
def decValue (l : List Char) : Int :=
  (digitsToNat 10 (l.map (fun c => c.toNat - 48)) : Int)

/-! ## Transaction builder

From `createHbarTransferTransaction` / `createTokenTransferTransaction`
in `PaymentForm.tsx` (and the identical inline construction in the
create-payload route): a `TransferTransaction` given a transaction id
generated from the facilitator (fee-paying) account, one debit entry and
one credit entry, frozen before return. -/

/-- One HBAR transfer entry (`addHbarTransfer`). -/
structure HbarEntry where
  account : String
  amount : JsNum
deriving DecidableEq, Repr

/-- One token transfer entry (`addTokenTransfer`). -/
structure TokenEntry where
  token : String
  account : String
  amount : JsNum
deriving DecidableEq, Repr

/-- The observable content of a built `TransferTransaction`. -/
structure TransferTx where
  txIdAccount : String
  hbarTransfers : List HbarEntry
  tokenTransfers : List TokenEntry
  frozen : Bool
deriving DecidableEq, Repr

/-- `createHbarTransferTransaction(fromAccount, toAccount,
facilitatorAccount, amount, client)`: transaction id generated from the
facilitator account, debit of `fromAccount` by `parseInt(amount)`, credit
of `toAccount` by the same, frozen. -/
def createHbarTransferTransaction (fromAccount toAccount facilitatorAccount : String)
    (amount : String) : TransferTx :=
  { txIdAccount := facilitatorAccount
    hbarTransfers :=
      [⟨fromAccount, jsNeg (parseIntJS amount)⟩, ⟨toAccount, parseIntJS amount⟩]
    tokenTransfers := []
    frozen := true }

/-- `createTokenTransferTransaction(fromAccount, toAccount,
facilitatorAccount, tokenId, amount, client)`. -/
def createTokenTransferTransaction (fromAccount toAccount facilitatorAccount tokenId : String)
    (amount : String) : TransferTx :=
  { txIdAccount := facilitatorAccount
    hbarTransfers := []
    tokenTransfers :=
      [⟨tokenId, fromAccount, jsNeg (parseIntJS amount)⟩,
       ⟨tokenId, toAccount, parseIntJS amount⟩]
    frozen := true }

/-- Sum of the amounts of a list of HBAR entries, with `NaN` propagation. -/
def sumHbar (l : List HbarEntry) : JsNum :=
  l.foldl (fun a e => jsAdd a e.amount) (some 0)

/-- Sum of the amounts of a list of token entries, with `NaN` propagation. -/
def sumToken (l : List TokenEntry) : JsNum :=
  l.foldl (fun a e => jsAdd a e.amount) (some 0)

/-! ## Data model of the facilitator protocol -/

/-- `PaymentRequirements` as constructed by the payment forms.  The
`extra.feePayer` field is flattened to `feePayer`; every form in the
source populates it. -/
structure PaymentRequirements where
  scheme : String
  network : String
  maxAmountRequired : String
  asset : String
  payTo : String
  resource : String
  description : String
  mimeType : String
  maxTimeoutSeconds : Nat
  feePayer : String
deriving DecidableEq, Repr

/-- JavaScript truthiness of an optional string field: absent and the
empty string are falsy. -/
def truthy : Option String → Bool
  | none => false
  | some s => !s.isEmpty

/-- Which key the server used when it signed a transaction. -/
inductive SigSource where
  | payerKey
  | facilitatorKey
deriving DecidableEq, Repr

/-- A transaction as it is serialized into the returned payload:
`serverSignedBy = none` means the route attached no signature of its
own (pre-signed path); otherwise it records which key signed at line
279 of the route. -/
structure ModelSignedTx where
  tx : TransferTx
  serverSignedBy : Option SigSource
deriving DecidableEq, Repr

/-- The `paymentPayload` object the route returns on success. -/
structure PaymentPayloadOut where
  x402Version : Nat
  scheme : String
  network : String
  transaction : ModelSignedTx
deriving DecidableEq, Repr

/-! ## The create-payload route

Shallow embedding of `POST /api/facilitator/create-payload`
(`src/frontend/app/api/facilitator/create-payload/route.ts`).  External
SDK calls are abstracted into a `RouteEnv`:

* `recoverAddress m s` models `ethers.verifyMessage(m, s)`; `none`
  models a thrown exception.
* `ecdsaOk` models whether `PrivateKey.fromStringECDSA` succeeds.
* `parseAcct` models `AccountId.fromString`, distinguishing success,
  the alias-key failure the route handles specially, and any other
  thrown error.
* `tokenIdOk` models whether `TokenId.fromString` succeeds.
* `decodeTx` models `Transaction.fromBytes` plus the
  `instanceof TransferTransaction` check.

`populateAccountEvmAddress` and `setOperator` are network-side
best-effort calls whose failures the route tolerates (logged only), so
they are modelled as no-ops. -/

/-- Result of `AccountId.fromString`. -/
inductive AcctParse where
  | ok
  | aliasFail
  | fail
deriving DecidableEq, Repr

/-- Result of decoding `transactionBytes`. -/
inductive DecodeTx where
  | transfer (tx : TransferTx)
  | notTransfer
  | throws
deriving Repr

/-- Abstracted external dependencies of the route. -/
structure RouteEnv where
  facilitatorKey : Option String
  recoverAddress : String → String → Option String
  ecdsaOk : String → Bool
  parseAcct : String → AcctParse
  tokenIdOk : String → Bool
  decodeTx : String → DecodeTx

/-- The request body of the route. -/
structure CreateRequest where
  paymentRequirements : Option PaymentRequirements
  payerAccountId : String
  payerPrivateKey : Option String
  walletSignature : Option String
  walletAddress : Option String
  transactionBytes : Option String
  transactionId : Option String
  signedMessage : Option String

/-- The HTTP response: `ok` is a 200 with a payload, `clientError` a
400, `serverError` a 500 (thrown errors reach the outer catch). -/
inductive RouteResult where
  | ok (payload : PaymentPayloadOut)
  | clientError (msg : String)
  | serverError (msg : String)
deriving DecidableEq, Repr

/-- The response together with the observable server-side effects:
whether `HEDERA_FACILITATOR_PRIVATE_KEY` was read, whether the route
signed the transaction itself, and which signing-key path was
selected. -/
structure RouteOutcome where
  result : RouteResult
  facilitatorKeyRead : Bool
  serverSigned : Bool
  signingSource : Option SigSource
deriving DecidableEq, Repr

def missingFieldsMsg : String := "Missing paymentRequirements or payerAccountId"
def sigMismatchMsg : String :=
  "Invalid signature: recovered address does not match wallet address"
def sigVerifyThrewMsg : String := "Signature verification failed"
def missingAuthMsg : String :=
  "Either payerPrivateKey or walletSignature (with walletAddress and signedMessage) must be provided"
def missingAuthLateMsg : String :=
  "Either payerPrivateKey or walletSignature must be provided"
def invalidNetworkMsg : String := "Invalid network"
def aliasKeyMsg : String :=
  "Account ID has an alias key. Please use the numeric account ID format."
def acctParseThrewMsg : String := "AccountId.fromString threw"
def ecdsaThrewMsg : String := "PrivateKey.fromStringECDSA threw"
def tokenIdThrewMsg : String := "TokenId.fromString threw"
def decodeThrewMsg : String := "Transaction.fromBytes threw"
def facilitatorKeyMissingMsg : String :=
  "Facilitator private key not configured. Set HEDERA_FACILITATOR_PRIVATE_KEY in your .env.local file."
def payerParseMsg : String := "Could not parse payer account ID"
def payerParseTxMsg : String := "Could not parse payer account ID for transaction creation"
def invalidTxTypeMsg : String := "Invalid transaction type"

/-- Transaction creation and signing, lines 210-293 of the route:
parse the fee payer and recipient, decode or build the transfer, then
sign it unless `transactionBytes` was provided.  `fkRead` and `src`
record what the signing-setup block already did. -/
def finishStep (env : RouteEnv) (req : CreateRequest) (pr : PaymentRequirements)
    (payerOk : Bool) (fkRead : Bool) (src : Option SigSource) : RouteOutcome :=
  match env.parseAcct pr.feePayer with
  | .aliasFail => ⟨.serverError acctParseThrewMsg, fkRead, false, src⟩
  | .fail => ⟨.serverError acctParseThrewMsg, fkRead, false, src⟩
  | .ok =>
  match env.parseAcct pr.payTo with
  | .aliasFail => ⟨.serverError acctParseThrewMsg, fkRead, false, src⟩
  | .fail => ⟨.serverError acctParseThrewMsg, fkRead, false, src⟩
  | .ok =>
  if truthy req.transactionBytes then
    match env.decodeTx (req.transactionBytes.getD "") with
    | .throws => ⟨.serverError decodeThrewMsg, fkRead, false, src⟩
    | .notTransfer => ⟨.clientError invalidTxTypeMsg, fkRead, false, src⟩
    | .transfer tx =>
      -- line 272: transactionBytes present, use the transaction as-is
      ⟨.ok { x402Version := 1, scheme := "exact", network := pr.network,
             transaction := ⟨tx, none⟩ },
       fkRead, false, src⟩
  else if pr.asset = "0.0.0" || jsToLower pr.asset = "hbar" then
    if !payerOk then ⟨.clientError payerParseTxMsg, fkRead, false, src⟩
    else
      let tx := createHbarTransferTransaction req.payerAccountId pr.payTo pr.feePayer
        pr.maxAmountRequired
      ⟨.ok { x402Version := 1, scheme := "exact", network := pr.network,
             transaction := ⟨tx, src⟩ },
       fkRead, true, src⟩
  else
    if !payerOk then ⟨.clientError payerParseTxMsg, fkRead, false, src⟩
    else if !env.tokenIdOk pr.asset then ⟨.serverError tokenIdThrewMsg, fkRead, false, src⟩
    else
      let tx := createTokenTransferTransaction req.payerAccountId pr.payTo pr.feePayer
        pr.asset pr.maxAmountRequired
      ⟨.ok { x402Version := 1, scheme := "exact", network := pr.network,
             transaction := ⟨tx, src⟩ },
       fkRead, true, src⟩

/-- Signing setup, lines 139-208 of the route: choose between the
payer-key path and the facilitator-key path.  The facilitator key is
read from the environment only in the second branch. -/
def signStep (env : RouteEnv) (req : CreateRequest) (pr : PaymentRequirements)
    (payerOk : Bool) : RouteOutcome :=
  if truthy req.payerPrivateKey then
    if !env.ecdsaOk (req.payerPrivateKey.getD "") then
      ⟨.serverError ecdsaThrewMsg, false, false, none⟩
    else if truthy req.transactionBytes then
      -- line 148: pre-signed, skip operator setup, placeholder account
      finishStep env req pr payerOk false (some .payerKey)
    else if !payerOk then
      ⟨.clientError payerParseMsg, false, false, none⟩
    else
      finishStep env req pr payerOk false (some .payerKey)
  else if truthy req.walletSignature then
    -- line 180: the facilitator key is read here
    match env.facilitatorKey with
    | none => ⟨.serverError facilitatorKeyMissingMsg, true, false, none⟩
    | some fk =>
      match env.parseAcct pr.feePayer with
      | .ok =>
        if !env.ecdsaOk fk then ⟨.serverError ecdsaThrewMsg, true, false, none⟩
        else finishStep env req pr payerOk true (some .facilitatorKey)
      | _ => ⟨.serverError acctParseThrewMsg, true, false, none⟩
  else
    ⟨.clientError missingAuthLateMsg, false, false, none⟩

/-- Payer account-id parsing, lines 94-137 of the route: required when
there is no pre-prepared transaction, tolerated otherwise. -/
inductive AcctStepRes where
  | err (o : RouteOutcome)
  | cont (payerOk : Bool)

def acctStep (env : RouteEnv) (req : CreateRequest) : AcctStepRes :=
  if !truthy req.transactionBytes then
    match env.parseAcct req.payerAccountId with
    | .ok => .cont true
    | .aliasFail => .err ⟨.clientError aliasKeyMsg, false, false, none⟩
    | .fail => .err ⟨.serverError acctParseThrewMsg, false, false, none⟩
  else
    match env.parseAcct req.payerAccountId with
    | .ok => .cont true
    | _ => .cont false

/-- Lines 85 onward of the route, after the authorization check. -/
def afterAuth (env : RouteEnv) (req : CreateRequest) (pr : PaymentRequirements) :
    RouteOutcome :=
  if !(pr.network = "hedera-testnet" || pr.network = "hedera-mainnet") then
    ⟨.clientError invalidNetworkMsg, false, false, none⟩
  else
    match acctStep env req with
    | .err o => o
    | .cont payerOk => signStep env req pr payerOk

/-- The whole `POST /api/facilitator/create-payload` handler. -/
def createPayloadRoute (env : RouteEnv) (req : CreateRequest) : RouteOutcome :=
  match req.paymentRequirements with
  | none => ⟨.clientError missingFieldsMsg, false, false, none⟩
  | some pr =>
    if req.payerAccountId.isEmpty then
      ⟨.clientError missingFieldsMsg, false, false, none⟩
    else if truthy req.walletSignature && truthy req.walletAddress &&
        truthy req.signedMessage then
      match env.recoverAddress (req.signedMessage.getD "") (req.walletSignature.getD "") with
      | none => ⟨.clientError sigVerifyThrewMsg, false, false, none⟩
      | some r =>
        if jsToLower r = jsToLower (req.walletAddress.getD "") then afterAuth env req pr
        else ⟨.clientError sigMismatchMsg, false, false, none⟩
    else if !truthy req.payerPrivateKey then
      ⟨.clientError missingAuthMsg, false, false, none⟩
    else
      afterAuth env req pr

/-! ## Key import

From `handleImport` in
`src/frontend/components/forms/payment/PrivateKeyImport.tsx`.
`PrivateKey.fromStringECDSA` and `AccountId.fromString` are abstracted
into predicates; encryption is modelled by recording what plaintext and
password were handed to `encryptPrivateKey`. -/

/-- The regular expression `\d+\.\d+\.\d+` anchored at both ends:
the string splits at the dots into exactly three nonempty digit groups. -/
def acctGroups : List Char → List (List Char)
  | [] => [[]]
  | '.' :: t => [] :: acctGroups t
  | c :: t =>
    match acctGroups t with
    | g :: gs => (c :: g) :: gs
    | [] => [[c]]

/-- `accountId.match(...)` with the account-id pattern of line 60. -/
def matchesAccountIdFormat (s : String) : Bool :=
  let gs := acctGroups s.data
  gs.length = 3 && gs.all (fun g => !g.isEmpty && g.all Char.isDigit)

/-- Lines 77-80: trim, then strip a leading `0x`. -/
def normalizeKey (s : String) : String :=
  let t := jsTrim s
  match t.data with
  | '0' :: 'x' :: rest => String.mk rest
  | _ => t

/-- What was handed to `encryptPrivateKey`. -/
structure EncBlob where
  plain : String
  password : String
deriving DecidableEq, Repr

/-- The record handed to `storeEncryptedKey`. -/
structure StoredRecord where
  accountId : String
  encryptedKey : EncBlob
deriving DecidableEq, Repr

/-- Abstracted SDK validators used by the import form. -/
structure ImportEnv where
  ecdsaOk : String → Bool
  acctOk : String → Bool

/-- `ok` stores the record; `err` stores nothing and shows the message. -/
inductive ImportResult where
  | ok (stored : StoredRecord)
  | err (msg : String)
deriving DecidableEq, Repr

/-- `handleImport` of `PrivateKeyImport.tsx`, lines 45-114. -/
def handleImport (env : ImportEnv)
    (privateKey accountId password confirmPassword : String) : ImportResult :=
  if (jsTrim privateKey).isEmpty then .err "Private key is required"
  else if (jsTrim accountId).isEmpty then .err "Account ID is required"
  else if !matchesAccountIdFormat accountId then
    .err "Invalid account ID format. Please use format: 0.0.123456"
  else if password.isEmpty then .err "Password is required"
  else if password.length < 8 then .err "Password must be at least 8 characters"
  else if password ≠ confirmPassword then .err "Passwords do not match"
  else if !env.ecdsaOk (normalizeKey privateKey) then
    .err "Invalid private key format. Please enter a valid ECDSA private key."
  else if !env.acctOk (jsTrim accountId) then
    .err "Invalid account ID format. Please enter a valid Hedera account ID."
  else .ok ⟨jsTrim accountId, ⟨normalizeKey privateKey, password⟩⟩

/-! ## Client payment state machine

From `PaymentForm.tsx`: the `step` state, the handlers
`createPaymentPayload`, `verifyPayment`, `settlePayment`, the
`Back to Form` and `Start Over` buttons, and the render guards that
decide which handler can run (the settle button is rendered only under
`step === "settle" && paymentPayload && verifyResponse?.isValid`,
line 708).  Ghost fields (`attempt`, `verifiedAttempts`, `settleCalls`)
record the history needed to state the sequencing claim: a payload is
identified with the number of the attempt that created it. -/

/-- The `step` React state. -/
inductive Step where
  | form
  | verify
  | settle
deriving DecidableEq, Repr

/-- `VerifyResponse` from the facilitator types. -/
structure VerifyResp where
  isValid : Bool
  invalidReason : Option String
deriving DecidableEq, Repr

/-- `SettleResponse` from the facilitator types; `transaction = ""`
models an absent identifier. -/
structure SettleResp where
  success : Bool
  transaction : String
  errorReason : Option String
deriving DecidableEq, Repr

/-- Client state of one payment form, plus ghost history. -/
structure FormState where
  step : Step
  paymentPayload : Option Nat
  verifyResponse : Option VerifyResp
  attempt : Nat
  verifiedAttempts : List Nat
  settleCalls : List Nat
deriving DecidableEq, Repr

/-- Initial React state: `step = "form"`, nothing stored. -/
def initFormState : FormState := ⟨.form, none, none, 0, [], []⟩

/-- User-visible events of the form: a successful payload creation, a
verify round-trip returning `r`, a settle round-trip, and the two
navigation buttons.  Failed network calls only set the error banner and
change none of the modelled fields. -/
inductive FormEv where
  | createOk
  | verifyRespond (r : VerifyResp)
  | settleRespond (r : SettleResp)
  | backToForm
  | startOver
deriving Repr

/-- One transition of `PaymentForm`.  Each handler is guarded by the
render condition under which its button exists; an event whose guard
fails leaves the state unchanged. -/
def formStep (s : FormState) (e : FormEv) : FormState :=
  match e with
  | .createOk =>
    if s.step = .form then
      { s with step := .verify, attempt := s.attempt + 1,
               paymentPayload := some (s.attempt + 1) }
    else s
  | .verifyRespond r =>
    if s.step = .verify ∧ s.paymentPayload ≠ none then
      if r.isValid then
        { s with verifyResponse := some r, step := .settle,
                 verifiedAttempts := s.attempt :: s.verifiedAttempts }
      else
        { s with verifyResponse := some r }
    else s
  | .settleRespond _ =>
    match s.verifyResponse with
    | some vr =>
      if s.step = .settle ∧ s.paymentPayload ≠ none ∧ vr.isValid then
        { s with settleCalls := s.attempt :: s.settleCalls }
      else s
    | none => s
  | .backToForm =>
    if s.step = .verify then { s with step := .form } else s
  | .startOver =>
    if s.step = .settle then
      { s with step := .form, paymentPayload := none, verifyResponse := none }
    else s

/-- Run the form from its initial state over a list of events. -/
def runForm (evs : List FormEv) : FormState :=
  evs.foldl formStep initFormState

/-- Sequencing invariant of the form: a settle call was only ever made
in an attempt for which a verify round-trip returned `isValid`, and the
settle view is only reachable in such an attempt. -/
def FormInv (s : FormState) : Prop :=
  (s.step = Step.settle → s.attempt ∈ s.verifiedAttempts) ∧
  ∀ a ∈ s.settleCalls, a ∈ s.verifiedAttempts

/-! ## Gated liquidity payment

From `LiquidityPaymentForm.handlePayment` in `LiquidityCard.tsx`
(lines 834-1088): the strictly sequential create, verify, settle calls
and the `respond` callback to the consuming feature.  The observable
behavior is the ordered list of emitted effects, as a function of the
authorization setup and the three endpoint responses. -/

/-- Observable effects of `handlePayment`, in program order. -/
inductive LEffect where
  | setStatus (s : String)
  | fetchCreate
  | fetchVerify
  | fetchSettle
  | notifyComplete (txid : String)
  | respond (paymentStatus : String) (transactionId : String) (message : String)
      (readyForQuery : Bool)
  | reportError (msg : String)
deriving DecidableEq, Repr

/-- An endpoint round-trip: `ok` is a 2xx with a parsed body,
`httpErr` is `!response.ok` (the handler throws and reports). -/
inductive HttpResp (α : Type) where
  | ok (a : α)
  | httpErr (msg : String)
deriving DecidableEq, Repr

/-- Inputs of one `handlePayment` run. -/
structure LiqEnv where
  authOk : Bool
  payerAccountId : String
  payToAccountId : String
  facilitatorAccountId : String
  acctOk : String → Bool
  createResp : HttpResp Unit
  verifyResp : HttpResp VerifyResp
  settleResp : HttpResp SettleResp

/-- `handlePayment`: effect trace of one invocation. -/
def liquidityHandlePayment (env : LiqEnv) : List LEffect :=
  if !env.authOk then
    [.reportError "authorization unavailable"]
  else if env.payerAccountId.isEmpty || env.payToAccountId.isEmpty ||
      env.facilitatorAccountId.isEmpty then
    [.reportError "Missing account information. Please ensure facilitator is configured."]
  else
    .setStatus "creating" ::
    (if !(env.acctOk env.payerAccountId && env.acctOk env.facilitatorAccountId &&
          env.acctOk env.payToAccountId) then
      [.reportError "Invalid account ID format. Please use format 0.0.xxxxx", .setStatus "error"]
    else
      .fetchCreate ::
      match env.createResp with
      | .httpErr m => [.reportError m, .setStatus "error"]
      | .ok _ =>
        .setStatus "verifying" :: .fetchVerify ::
        match env.verifyResp with
        | .httpErr m => [.reportError m, .setStatus "error"]
        | .ok v =>
          if !v.isValid then
            [.reportError (v.invalidReason.getD "Payment verification failed"),
             .setStatus "error"]
          else
            .setStatus "settling" :: .fetchSettle ::
            match env.settleResp with
            | .httpErr m => [.reportError m, .setStatus "error"]
            | .ok sd =>
              if !sd.success then
                [.reportError (sd.errorReason.getD "Payment settlement failed"),
                 .setStatus "error"]
              else
                [.setStatus "completed", .notifyComplete sd.transaction,
                 .respond "completed" sd.transaction
                   ("Payment settled successfully. Transaction: " ++ sd.transaction) true])

/-- The path condition under which the run reaches a successful
settlement, stated independently of the effect trace. -/
def settlementSucceeded (env : LiqEnv) : Bool :=
  env.authOk && !env.payerAccountId.isEmpty && !env.payToAccountId.isEmpty &&
  !env.facilitatorAccountId.isEmpty &&
  env.acctOk env.payerAccountId && env.acctOk env.facilitatorAccountId &&
  env.acctOk env.payToAccountId &&
  (match env.createResp with | .ok _ => true | .httpErr _ => false) &&
  (match env.verifyResp with | .ok v => v.isValid | .httpErr _ => false) &&
  (match env.settleResp with | .ok sd => sd.success | .httpErr _ => false)

/-- The settlement transaction identifier the run would report. -/
def settleTransactionOf (env : LiqEnv) : String :=
  match env.settleResp with
  | .ok sd => sd.transaction
  | .httpErr _ => ""

/-- Is this effect a `respond` callback? -/
def isRespond : LEffect → Bool
  | .respond _ _ _ _ => true
  | _ => false

/-- The `respond` callbacks of a trace, in order. -/
def respondCalls (l : List LEffect) : List LEffect := l.filter isRespond

/-- Every `respond` in the trace occurs after a `fetchSettle`. -/
def respondAfterSettleAux (seen : Bool) : List LEffect → Bool
  | [] => true
  | .fetchSettle :: t => respondAfterSettleAux true t
  | e :: t => (!isRespond e || seen) && respondAfterSettleAux seen t

/-- Modelled from the spec: the settle endpoint is not under `src/`
(only its callers are); section 3 and section 8 of the spec state that
a successful `SettleResponse` carries a settlement transaction
identifier, and the end-to-end property requires it non-empty. -/
def SettleRespMeetsSpec (r : SettleResp) : Prop :=
  r.success = true → r.transaction ≠ ""

/-! ## The verify endpoint, modelled from the spec

Modelled from the spec: the verify route
(`POST /api/facilitator/verify`) is not part of the sources under
`src/` (only its clients are).  Section 4.4 of the spec: verify must
confirm that the network, asset, amount, payTo and feePayer embedded in
or implied by the `PaymentPayload` match the submitted
`PaymentRequirements` exactly, returning `isValid` with an
`invalidReason` on failure. -/

/-- The payment terms embedded in or implied by a `PaymentPayload`:
the payload records its network, and its serialized transaction fixes
the amount, asset, recipient and fee payer chosen at creation. -/
structure EmbeddedTerms where
  network : String
  maxAmountRequired : String
  asset : String
  payTo : String
  feePayer : String
deriving DecidableEq, Repr

/-- The terms a payload created against `pr` embeds. -/
def embeddedTerms (pr : PaymentRequirements) : EmbeddedTerms :=
  ⟨pr.network, pr.maxAmountRequired, pr.asset, pr.payTo, pr.feePayer⟩

/-- Modelled from the spec: the verify endpoint compares each embedded
field with the submitted requirements and reports the first
mismatch. -/
def verifyModel (embedded : EmbeddedTerms) (pr : PaymentRequirements) : VerifyResp :=
  if embedded.network ≠ pr.network then ⟨false, some "network mismatch"⟩
  else if embedded.maxAmountRequired ≠ pr.maxAmountRequired then
    ⟨false, some "amount mismatch"⟩
  else if embedded.asset ≠ pr.asset then ⟨false, some "asset mismatch"⟩
  else if embedded.payTo ≠ pr.payTo then ⟨false, some "payTo mismatch"⟩
  else if embedded.feePayer ≠ pr.feePayer then ⟨false, some "feePayer mismatch"⟩
  else ⟨true, none⟩

/-! ## Concrete sample data for evaluating the model -/

/-- The requirements the payment form builds with its default values. -/
def samplePr : PaymentRequirements :=
  { scheme := "exact", network := "hedera-testnet", maxAmountRequired := "100000000",
    asset := "0.0.0", payTo := "0.0.2", resource := "https://example.com/resource",
    description := "Test payment via x402 facilitator", mimeType := "application/json",
    maxTimeoutSeconds := 60, feePayer := "0.0.9" }

/-- An environment where every external SDK call succeeds. -/
def sampleEnv : RouteEnv :=
  { facilitatorKey := some "fk"
    recoverAddress := fun _ _ => some "0xAB"
    ecdsaOk := fun _ => true
    parseAcct := fun _ => .ok
    tokenIdOk := fun _ => true
    decodeTx := fun _ => .transfer
      { txIdAccount := "0.0.9", hbarTransfers := [], tokenTransfers := [], frozen := true } }

/-- A request with the sample requirements and no authorization material. -/
def bareReq : CreateRequest :=
  { paymentRequirements := some samplePr, payerAccountId := "0.0.7",
    payerPrivateKey := none, walletSignature := none, walletAddress := none,
    transactionBytes := none, transactionId := none, signedMessage := none }

/-! # Theorems -/

/-- C1: for every pair of requirements, if any of the network, amount,
asset, payTo or feePayer fields of the submitted requirements differs
from the field embedded in a payload created against the original
requirements, the modelled verify operation returns `isValid = false`;
in particular a payload whose `maxAmountRequired` was mutated after
creation fails verification. -/
theorem verify_rejects_any_field_mismatch (pr pr' : PaymentRequirements)
    (h : pr.network ≠ pr'.network ∨ pr.maxAmountRequired ≠ pr'.maxAmountRequired ∨
         pr.asset ≠ pr'.asset ∨ pr.payTo ≠ pr'.payTo ∨ pr.feePayer ≠ pr'.feePayer) :
    (verifyModel (embeddedTerms pr) pr').isValid = false := by
  unfold verifyModel embeddedTerms
  rcases h with h | h | h | h | h <;> split_ifs <;> simp_all

/-- Witness for C1: mutating `maxAmountRequired` from the sample value
to `"999"` makes verification fail. -/
theorem verify_rejects_any_field_mismatch_witness :
    samplePr.maxAmountRequired ≠ "999" ∧
    (verifyModel (embeddedTerms samplePr)
      { samplePr with maxAmountRequired := "999" }).isValid = false :=
  ⟨by decide,
   verify_rejects_any_field_mismatch samplePr { samplePr with maxAmountRequired := "999" }
     (Or.inr (Or.inl (by decide)))⟩

/-- C2: for every valid amount (one `parseInt` accepts), both transfer
builders produce a frozen transaction whose two entries are a debit of
the payer and an equal credit of the recipient, summing to zero, with
the transaction identifier generated from the fee-paying facilitator
account. -/
theorem buildTransfer_balanced_two_entry
    (fromAccount toAccount feePayer tokenId amount : String)
    (n : Int) (h : parseIntJS amount = some n) :
    createHbarTransferTransaction fromAccount toAccount feePayer amount =
      { txIdAccount := feePayer,
        hbarTransfers := [⟨fromAccount, some (-n)⟩, ⟨toAccount, some n⟩],
        tokenTransfers := [], frozen := true } ∧
    sumHbar (createHbarTransferTransaction fromAccount toAccount feePayer amount).hbarTransfers
      = some 0 ∧
    createTokenTransferTransaction fromAccount toAccount feePayer tokenId amount =
      { txIdAccount := feePayer, hbarTransfers := [],
        tokenTransfers := [⟨tokenId, fromAccount, some (-n)⟩, ⟨tokenId, toAccount, some n⟩],
        frozen := true } ∧
    sumToken
      (createTokenTransferTransaction fromAccount toAccount feePayer tokenId amount).tokenTransfers
      = some 0 := by
  refine ⟨?_, ?_, ?_, ?_⟩ <;>
    simp [createHbarTransferTransaction, createTokenTransferTransaction,
      sumHbar, sumToken, jsNeg, jsAdd, h]

/-- Witness for C2: the default one-HBAR amount builds balanced
two-entry transfers in both forms. -/
theorem buildTransfer_balanced_two_entry_witness :
    parseIntJS "100000000" = some 100000000 ∧
    sumHbar (createHbarTransferTransaction "0.0.7" "0.0.2" "0.0.9"
      "100000000").hbarTransfers = some 0 ∧
    sumToken (createTokenTransferTransaction "0.0.7" "0.0.2" "0.0.9" "0.0.429274"
      "100000000").tokenTransfers = some 0 :=
  have h := buildTransfer_balanced_two_entry "0.0.7" "0.0.2" "0.0.9" "0.0.429274"
    "100000000" 100000000 (by decide)
  ⟨by decide, h.2.1, h.2.2.2⟩

/-- C7: key import fails with a validation error and stores no record
whenever the account id does not match the account-id format, the
normalized key fails ECDSA parsing, the password is shorter than 8
characters, or the password and confirmation differ; and the raw key is
normalized by stripping a leading `0x` from the trimmed input before
the ECDSA validation. -/
theorem importKey_validation (env : ImportEnv)
    (privateKey accountId password confirmPassword : String) :
    ((matchesAccountIdFormat accountId = false ∨
      env.ecdsaOk (normalizeKey privateKey) = false ∨
      password.length < 8 ∨ password ≠ confirmPassword) →
      ∃ msg, handleImport env privateKey accountId password confirmPassword =
        ImportResult.err msg) ∧
    (∀ rest : List Char, (jsTrim privateKey).data = '0' :: 'x' :: rest →
      normalizeKey privateKey = String.mk rest) := by
  constructor
  · intro h
    unfold handleImport
    repeat' split
    all_goals first
      | exact ⟨_, rfl⟩
      | (exfalso
         rcases h with h | h | h | h <;> simp_all)
  · intro rest hres
    simp [normalizeKey, hres]

/-- Witness for C7: a `0x`-prefixed key that the ECDSA parser rejects
is refused, and the normalization strips the prefix. -/
theorem importKey_validation_witness :
    (∃ msg, handleImport ⟨fun _ => false, fun _ => true⟩ "0xabc" "0.0.1"
      "password" "password" = ImportResult.err msg) ∧
    normalizeKey "0xabc" = "abc" :=
  have h := importKey_validation ⟨fun _ => false, fun _ => true⟩ "0xabc" "0.0.1"
    "password" "password"
  ⟨h.1 (Or.inr (Or.inl rfl)), h.2 "abc".data (by decide)⟩

/-- C5: a create-payload request with requirements and a payer account
but neither a private key nor a complete wallet-signature triple is
rejected with the missing-authorization 400; no payload is produced, no
key is read and nothing is signed. -/
theorem createPayload_missing_authorization (env : RouteEnv) (req : CreateRequest)
    (pr : PaymentRequirements)
    (hpr : req.paymentRequirements = some pr)
    (hacct : req.payerAccountId.isEmpty = false)
    (hkey : truthy req.payerPrivateKey = false)
    (hw : (truthy req.walletSignature && truthy req.walletAddress &&
      truthy req.signedMessage) = false) :
    createPayloadRoute env req =
      ⟨RouteResult.clientError missingAuthMsg, false, false, none⟩ := by
  unfold createPayloadRoute
  rw [hpr]
  simp [hacct, hw, hkey]

/-- Witness for C5: the bare sample request carries no authorization
and is rejected with the missing-authorization error. -/
theorem createPayload_missing_authorization_witness :
    createPayloadRoute sampleEnv bareReq =
      ⟨RouteResult.clientError missingAuthMsg, false, false, none⟩ :=
  createPayload_missing_authorization sampleEnv bareReq samplePr rfl rfl rfl rfl

/-! Helper lemmas about the stages of the create-payload route. -/

/-- `finishStep` reports exactly the key-read flag it was given. -/
theorem finishStep_fkRead (env : RouteEnv) (req : CreateRequest) (pr : PaymentRequirements)
    (payerOk fkRead : Bool) (src : Option SigSource) :
    (finishStep env req pr payerOk fkRead src).facilitatorKeyRead = fkRead := by
  unfold finishStep
  (repeat' split) <;> rfl

/-- `finishStep` reports exactly the signing source it was given. -/
theorem finishStep_src (env : RouteEnv) (req : CreateRequest) (pr : PaymentRequirements)
    (payerOk fkRead : Bool) (src : Option SigSource) :
    (finishStep env req pr payerOk fkRead src).signingSource = src := by
  unfold finishStep
  (repeat' split) <;> rfl

/-- With pre-prepared transaction bytes, `finishStep` never signs and
any returned payload carries no server signature. -/
theorem finishStep_presigned (env : RouteEnv) (req : CreateRequest)
    (pr : PaymentRequirements) (payerOk fkRead : Bool) (src : Option SigSource)
    (htb : truthy req.transactionBytes = true) :
    (finishStep env req pr payerOk fkRead src).serverSigned = false ∧
    ∀ p, (finishStep env req pr payerOk fkRead src).result = RouteResult.ok p →
      p.transaction.serverSignedBy = none := by
  unfold finishStep
  (repeat' split) <;> simp_all

/-- `finishStep` never reports the signature-mismatch message. -/
theorem finishStep_not_sigMismatch (env : RouteEnv) (req : CreateRequest)
    (pr : PaymentRequirements) (payerOk fkRead : Bool) (src : Option SigSource) :
    (finishStep env req pr payerOk fkRead src).result ≠
      RouteResult.clientError sigMismatchMsg := by
  unfold finishStep
  (repeat' split) <;>
    simp [sigMismatchMsg, payerParseTxMsg, invalidTxTypeMsg]

/-- If the signing setup read the facilitator key, the request carried
no private key and did carry a wallet signature. -/
theorem signStep_fkRead (env : RouteEnv) (req : CreateRequest) (pr : PaymentRequirements)
    (payerOk : Bool)
    (h : (signStep env req pr payerOk).facilitatorKeyRead = true) :
    truthy req.payerPrivateKey = false ∧ truthy req.walletSignature = true := by
  unfold signStep at h
  (repeat' split at h) <;>
    simp_all [finishStep_fkRead]

/-- With a private key present, the signing setup takes the payer path:
it never reads the facilitator key and never selects it for signing. -/
theorem signStep_payerPath (env : RouteEnv) (req : CreateRequest)
    (pr : PaymentRequirements) (payerOk : Bool)
    (hkey : truthy req.payerPrivateKey = true) :
    (signStep env req pr payerOk).facilitatorKeyRead = false ∧
    (signStep env req pr payerOk).signingSource ≠ some SigSource.facilitatorKey := by
  unfold signStep
  (repeat' split) <;>
    simp_all [finishStep_fkRead, finishStep_src]

/-- `signStep` never reports the signature-mismatch message. -/
theorem signStep_not_sigMismatch (env : RouteEnv) (req : CreateRequest)
    (pr : PaymentRequirements) (payerOk : Bool) :
    (signStep env req pr payerOk).result ≠ RouteResult.clientError sigMismatchMsg := by
  unfold signStep
  (repeat' split) <;>
    first
      | apply finishStep_not_sigMismatch
      | simp [sigMismatchMsg, ecdsaThrewMsg, payerParseMsg, facilitatorKeyMissingMsg,
          acctParseThrewMsg, missingAuthLateMsg]

/-- The account-parsing stage fails only with outcomes that touched no
key, selected no signer, and are not the signature-mismatch error. -/
theorem acctStep_err (env : RouteEnv) (req : CreateRequest) (o : RouteOutcome)
    (h : acctStep env req = AcctStepRes.err o) :
    o.facilitatorKeyRead = false ∧ o.signingSource = none ∧
    o.result ≠ RouteResult.clientError sigMismatchMsg ∧
    o.serverSigned = false ∧ ∀ p, o.result ≠ RouteResult.ok p := by
  unfold acctStep at h
  (repeat' split at h) <;> (try cases h) <;>
    simp_all [aliasKeyMsg, sigMismatchMsg, acctParseThrewMsg]

/-- If the post-authorization stages read the facilitator key, the
request carried no private key and did carry a wallet signature. -/
theorem afterAuth_fkRead (env : RouteEnv) (req : CreateRequest) (pr : PaymentRequirements)
    (h : (afterAuth env req pr).facilitatorKeyRead = true) :
    truthy req.payerPrivateKey = false ∧ truthy req.walletSignature = true := by
  unfold afterAuth at h
  split at h
  · simp at h
  · cases hacct : acctStep env req with
    | err o =>
      rw [hacct] at h
      have := acctStep_err env req o hacct
      simp_all
    | cont payerOk =>
      rw [hacct] at h
      exact signStep_fkRead env req pr payerOk h

/-- With a private key present, the post-authorization stages never
touch the facilitator key. -/
theorem afterAuth_payerPath (env : RouteEnv) (req : CreateRequest)
    (pr : PaymentRequirements) (hkey : truthy req.payerPrivateKey = true) :
    (afterAuth env req pr).facilitatorKeyRead = false ∧
    (afterAuth env req pr).signingSource ≠ some SigSource.facilitatorKey := by
  unfold afterAuth
  split
  · simp
  · cases hacct : acctStep env req with
    | err o =>
      have := acctStep_err env req o hacct
      simp_all
    | cont payerOk =>
      exact signStep_payerPath env req pr payerOk hkey

/-- The post-authorization stages never report the signature-mismatch
message. -/
theorem afterAuth_not_sigMismatch (env : RouteEnv) (req : CreateRequest)
    (pr : PaymentRequirements) :
    (afterAuth env req pr).result ≠ RouteResult.clientError sigMismatchMsg := by
  unfold afterAuth
  split
  · simp [sigMismatchMsg, invalidNetworkMsg]
  · cases hacct : acctStep env req with
    | err o =>
      have := acctStep_err env req o hacct
      simp_all
    | cont payerOk =>
      exact signStep_not_sigMismatch env req pr payerOk

/-- C9: the facilitator signing key is read only on requests with no
`payerPrivateKey` whose wallet-signature triple is present and verified
(the recovered address matches the declared one case-insensitively);
whenever `payerPrivateKey` is present the payer path is taken, and the
facilitator key is neither read nor selected for signing. -/
theorem facilitatorKey_only_after_wallet_verification (env : RouteEnv) (req : CreateRequest) :
    ((createPayloadRoute env req).facilitatorKeyRead = true →
      truthy req.payerPrivateKey = false ∧ truthy req.walletSignature = true ∧
      truthy req.walletAddress = true ∧ truthy req.signedMessage = true ∧
      ∃ r, env.recoverAddress (req.signedMessage.getD "") (req.walletSignature.getD "") =
          some r ∧
        jsToLower r = jsToLower (req.walletAddress.getD "")) ∧
    (truthy req.payerPrivateKey = true →
      (createPayloadRoute env req).facilitatorKeyRead = false ∧
      (createPayloadRoute env req).signingSource ≠ some SigSource.facilitatorKey) := by
  constructor
  · intro h
    unfold createPayloadRoute at h
    split at h
    · simp at h
    · rename_i pr hpr
      split at h
      · simp at h
      · rename_i hne
        split at h
        · rename_i htriple
          split at h
          · simp at h
          · rename_i r hrec
            split at h
            · rename_i hlow
              have hfk := afterAuth_fkRead env req pr h
              have h3 := htriple
              simp only [Bool.and_eq_true] at h3
              exact ⟨hfk.1, h3.1.1, h3.1.2, h3.2, r, hrec, hlow⟩
            · simp at h
        · rename_i htriple
          split at h
          · simp at h
          · rename_i hpk
            have hfk := afterAuth_fkRead env req pr h
            simp_all
  · intro hkey
    unfold createPayloadRoute
    split
    · simp
    · rename_i pr hpr
      split
      · simp
      · split
        · split
          · simp
          · split
            · exact afterAuth_payerPath env req pr hkey
            · simp
        · split
          · simp
          · exact afterAuth_payerPath env req pr hkey

/-- With pre-prepared transaction bytes, the signing setup leads to no
server-side signature. -/
theorem signStep_presigned (env : RouteEnv) (req : CreateRequest)
    (pr : PaymentRequirements) (payerOk : Bool)
    (htb : truthy req.transactionBytes = true) :
    (signStep env req pr payerOk).serverSigned = false ∧
    ∀ p, (signStep env req pr payerOk).result = RouteResult.ok p →
      p.transaction.serverSignedBy = none := by
  unfold signStep
  (repeat' split) <;>
    first
      | exact finishStep_presigned env req pr _ _ _ htb
      | simp_all

/-- With pre-prepared transaction bytes, the post-authorization stages
never sign server-side. -/
theorem afterAuth_presigned (env : RouteEnv) (req : CreateRequest)
    (pr : PaymentRequirements) (htb : truthy req.transactionBytes = true) :
    (afterAuth env req pr).serverSigned = false ∧
    ∀ p, (afterAuth env req pr).result = RouteResult.ok p →
      p.transaction.serverSignedBy = none := by
  unfold afterAuth
  split
  · simp
  · cases hacct : acctStep env req with
    | err o =>
      have := acctStep_err env req o hacct
      exact ⟨this.2.2.2.1, fun p hp => absurd hp (this.2.2.2.2 p)⟩
    | cont payerOk =>
      exact signStep_presigned env req pr payerOk htb

/-- C3, counterexample to the claim as stated: a create-payload request
carrying `payerPrivateKey` but no `transactionBytes` (the direct
signing flow that builds the transaction server-side) returns a payload
whose transaction the facilitator itself signed with the payer key, so
the request was not treated as pre-signed. -/
theorem presigned_claim_counterexample :
    (createPayloadRoute sampleEnv
      { bareReq with payerPrivateKey := some "4f" }).serverSigned = true ∧
    (createPayloadRoute sampleEnv
      { bareReq with payerPrivateKey := some "4f" }).result =
      RouteResult.ok
        { x402Version := 1, scheme := "exact", network := "hedera-testnet",
          transaction :=
            ⟨createHbarTransferTransaction "0.0.7" "0.0.2" "0.0.9" "100000000",
             some SigSource.payerKey⟩ } := by
  decide

/-- C3 as amended: whenever `payerPrivateKey` is present AND the
request also carries pre-prepared `transactionBytes`, the facilitator
treats the transaction as pre-signed and skips re-signing: the route
performs no server-side signing and any returned payload carries no
server signature.  (Without `transactionBytes` the route creates the
transaction and signs it server-side with the payer key.) -/
theorem presigned_requests_not_resigned (env : RouteEnv) (req : CreateRequest)
    (hkey : truthy req.payerPrivateKey = true)
    (htb : truthy req.transactionBytes = true) :
    (createPayloadRoute env req).serverSigned = false ∧
    ∀ p, (createPayloadRoute env req).result = RouteResult.ok p →
      p.transaction.serverSignedBy = none := by
  unfold createPayloadRoute
  split
  · simp
  · rename_i pr hpr
    split
    · simp
    · split
      · split
        · simp
        · split
          · exact afterAuth_presigned env req pr htb
          · simp
      · split
        · simp
        · exact afterAuth_presigned env req pr htb

/-- Witness for C3 (amended): a request with both a payer key and
transaction bytes returns the decoded transaction unsigned. -/
theorem presigned_requests_not_resigned_witness :
    truthy (some "4f") = true ∧ truthy (some "cGF5bG9hZA") = true ∧
    (createPayloadRoute sampleEnv
      { bareReq with payerPrivateKey := some "4f",
                     transactionBytes := some "cGF5bG9hZA" }).serverSigned = false ∧
    ({ x402Version := 1, scheme := "exact", network := "hedera-testnet",
       transaction :=
         ⟨{ txIdAccount := "0.0.9", hbarTransfers := [], tokenTransfers := [],
            frozen := true }, none⟩ } : PaymentPayloadOut).transaction.serverSignedBy
      = none :=
  have h := presigned_requests_not_resigned sampleEnv
    { bareReq with payerPrivateKey := some "4f", transactionBytes := some "cGF5bG9hZA" }
    (by decide) (by decide)
  ⟨by decide, by decide, h.1, h.2 _ (by decide)⟩

/-- Every transition of the payment form preserves the sequencing
invariant. -/
theorem formStep_preserves_inv (s : FormState) (e : FormEv) (h : FormInv s) :
    FormInv (formStep s e) := by
  obtain ⟨h1, h2⟩ := h
  unfold FormInv
  cases e with
  | createOk =>
    simp only [formStep]
    split
    · exact ⟨fun hs => by simp at hs, h2⟩
    · exact ⟨h1, h2⟩
  | verifyRespond r =>
    simp only [formStep]
    split
    · split
      · exact ⟨fun _ => List.mem_cons_self _ _,
          fun a ha => List.mem_cons_of_mem _ (h2 a ha)⟩
      · exact ⟨h1, h2⟩
    · exact ⟨h1, h2⟩
  | settleRespond r =>
    simp only [formStep]
    split
    · split
      · rename_i vr hv hg
        refine ⟨fun hs => h1 hg.1, ?_⟩
        intro a ha
        rcases List.mem_cons.1 ha with rfl | ha
        · exact h1 hg.1
        · exact h2 a ha
      · exact ⟨h1, h2⟩
    · exact ⟨h1, h2⟩
  | backToForm =>
    simp only [formStep]
    split
    · exact ⟨fun hs => by simp at hs, h2⟩
    · exact ⟨h1, h2⟩
  | startOver =>
    simp only [formStep]
    split
    · exact ⟨fun hs => by simp at hs, h2⟩
    · exact ⟨h1, h2⟩

/-- The invariant holds along every run. -/
theorem runForm_inv_aux (evs : List FormEv) (s : FormState) (h : FormInv s) :
    FormInv (evs.foldl formStep s) := by
  induction evs generalizing s with
  | nil => exact h
  | cons e t ih => exact ih _ (formStep_preserves_inv s e h)

/-- C6: along every event sequence of the payment form, each settle
invocation happened in an attempt for which a verify round-trip had
already returned `isValid = true`; and a verify response with
`isValid = false` leaves the form at the verify step with the settle
invocations unchanged. -/
theorem settle_only_after_valid_verify :
    (∀ evs : List FormEv, ∀ a ∈ (runForm evs).settleCalls,
      a ∈ (runForm evs).verifiedAttempts) ∧
    (∀ (s : FormState) (r : VerifyResp), s.step = Step.verify → r.isValid = false →
      (formStep s (FormEv.verifyRespond r)).step = Step.verify ∧
      (formStep s (FormEv.verifyRespond r)).settleCalls = s.settleCalls) := by
  constructor
  · intro evs
    exact (runForm_inv_aux evs initFormState
      ⟨fun hs => by simp [initFormState] at hs, fun a ha => by
        simp [initFormState] at ha⟩).2
  · intro s r hs hr
    simp only [formStep]
    split
    · rw [if_neg (by simp [hr])]
      exact ⟨hs, rfl⟩
    · exact ⟨hs, rfl⟩

/-- Witness for C6: a run that creates, verifies validly and settles
records the settle call in a verified attempt; an invalid verify leaves
a concrete verify-step state unchanged. -/
theorem settle_only_after_valid_verify_witness :
    ((1 : Nat) ∈ (runForm [FormEv.createOk, FormEv.verifyRespond ⟨true, none⟩,
        FormEv.settleRespond ⟨true, "0.0.9@1700000000", none⟩]).settleCalls ∧
      (1 : Nat) ∈ (runForm [FormEv.createOk, FormEv.verifyRespond ⟨true, none⟩,
        FormEv.settleRespond ⟨true, "0.0.9@1700000000", none⟩]).verifiedAttempts) ∧
    ((formStep ⟨Step.verify, some 1, none, 1, [], []⟩
        (FormEv.verifyRespond ⟨false, some "bad"⟩)).step = Step.verify ∧
      (formStep ⟨Step.verify, some 1, none, 1, [], []⟩
        (FormEv.verifyRespond ⟨false, some "bad"⟩)).settleCalls = []) :=
  ⟨⟨by decide,
    settle_only_after_valid_verify.1
      [FormEv.createOk, FormEv.verifyRespond ⟨true, none⟩,
        FormEv.settleRespond ⟨true, "0.0.9@1700000000", none⟩] 1 (by decide)⟩,
   settle_only_after_valid_verify.2 ⟨Step.verify, some 1, none, 1, [], []⟩
     ⟨false, some "bad"⟩ rfl rfl⟩

/-- A digit character differs from any non-digit character. -/
theorem digit_ne {c : Char} (h : c.isDigit = true) (d : Char)
    (hd : d.isDigit = false) : c ≠ d := by
  intro he
  subst he
  rw [h] at hd
  cases hd

/-- A digit character is not JavaScript whitespace. -/
theorem digit_not_space {c : Char} (h : c.isDigit = true) : isJsSpace c = false := by
  have h1 := digit_ne h ' ' (by decide)
  have h2 := digit_ne h '\t' (by decide)
  have h3 := digit_ne h '\n' (by decide)
  have h4 := digit_ne h '\r' (by decide)
  simp [isJsSpace, h1, h2, h3, h4]

/-- `takeDigits` consumes exactly an all-digit block when what follows
starts with a non-digit (or nothing). -/
theorem takeDigits_digit_block (l r : List Char)
    (hd : ∀ c ∈ l, c.isDigit = true)
    (hr : ∀ c t, r = c :: t → c.isDigit = false) :
    takeDigits digitVal (l ++ r) = (l.map (fun c => c.toNat - 48), r) := by
  induction l with
  | nil =>
    cases r with
    | nil => rfl
    | cons c t =>
      have hc := hr c t rfl
      simp [takeDigits, digitVal, hc]
  | cons c l ih =>
    have hc : c.isDigit = true := hd c (List.mem_cons_self c l)
    simp [takeDigits, digitVal, hc,
      ih (fun x hx => hd x (List.mem_cons_of_mem c hx))]

/-- `signSplit` passes through a list that starts with neither sign. -/
theorem signSplit_no_sign (c : Char) (t : List Char) (h1 : c ≠ '-') (h2 : c ≠ '+') :
    signSplit (c :: t) = (1, c :: t) := by
  unfold signSplit
  split <;> simp_all

/-- `parseIntChars` on a nonempty all-digit block followed by nothing
or a blocked remainder yields the decimal value of the block. -/
theorem parseIntChars_digit_block (l r : List Char) (hne : l ≠ [])
    (hd : ∀ c ∈ l, c.isDigit = true)
    (hr : r = [] ∨ restBlocked r = true) :
    parseIntChars (l ++ r) = some (decValue l) := by
  obtain ⟨a, l', rfl⟩ := List.exists_cons_of_ne_nil hne
  have ha : a.isDigit = true := hd a (List.mem_cons_self a l')
  have hrne : ∀ c t, r = c :: t → c.isDigit = false ∧ c ≠ 'x' ∧ c ≠ 'X' := by
    intro c t hct
    rcases hr with rfl | hb
    · cases hct
    · rw [hct] at hb
      simp only [restBlocked, Bool.and_eq_true, Bool.not_eq_true',
        bne_iff_ne] at hb
      exact ⟨hb.1.1, hb.1.2, hb.2⟩
  simp only [parseIntChars]
  rw [List.cons_append, List.dropWhile_cons, if_neg (by simp [digit_not_space ha])]
  rw [signSplit_no_sign a (l' ++ r) (digit_ne ha '-' (by decide))
    (digit_ne ha '+' (by decide))]
  have hbody : parseBody (a :: (l' ++ r)) = parseDigits (a :: (l' ++ r)) := by
    unfold parseBody
    split
    · rename_i heq
      exfalso
      cases l' with
      | nil =>
        simp only [List.nil_append] at heq
        obtain ⟨rfl, hrx⟩ : a = '0' ∧ r = 'x' :: _ := by
          cases heq
          exact ⟨rfl, rfl⟩
        exact absurd rfl (hrne 'x' _ hrx).2.1
      | cons b l'' =>
        simp only [List.cons_append] at heq
        have hb : b.isDigit = true := hd b (List.mem_cons_of_mem a (List.mem_cons_self b l''))
        cases heq
        exact absurd hb (by decide)
    · rename_i heq
      exfalso
      cases l' with
      | nil =>
        simp only [List.nil_append] at heq
        obtain ⟨rfl, hrx⟩ : a = '0' ∧ r = 'X' :: _ := by
          cases heq
          exact ⟨rfl, rfl⟩
        exact absurd rfl (hrne 'X' _ hrx).2.2
      | cons b l'' =>
        simp only [List.cons_append] at heq
        have hb : b.isDigit = true := hd b (List.mem_cons_of_mem a (List.mem_cons_self b l''))
        cases heq
        exact absurd hb (by decide)
    · rfl
  rw [hbody]
  unfold parseDigits
  rw [← List.cons_append,
    takeDigits_digit_block (a :: l') r hd (fun c t hct => (hrne c t hct).1)]
  simp [decValue]

/-- `parseIntChars` on input whose first character can start no
numeral is `NaN`. -/
theorem parseIntChars_nonnumeric (c : Char) (t : List Char)
    (h : leadingNonNumeric (c :: t) = true) :
    parseIntChars (c :: t) = none := by
  simp only [leadingNonNumeric, Bool.and_eq_true, Bool.not_eq_true',
    bne_iff_ne] at h
  obtain ⟨⟨⟨hd, hplus⟩, hminus⟩, hspace⟩ := h
  simp only [parseIntChars]
  rw [List.dropWhile_cons, if_neg (by simp [hspace])]
  rw [signSplit_no_sign c t hminus hplus]
  have hbody : parseBody (c :: t) = parseDigits (c :: t) := by
    unfold parseBody
    split
    · rename_i heq
      exfalso
      cases heq
      exact absurd hd (by decide)
    · rename_i heq
      exfalso
      cases heq
      exact absurd hd (by decide)
    · rfl
  rw [hbody]
  simp [parseDigits, takeDigits, digitVal, hd]

/-- C10: the builders parse the amount with `parseInt`, so an amount
string that is a decimal block followed by other characters silently
builds a transfer of the value of the block alone (the builder rejects
nothing), and an amount whose first character can start no numeral
builds NaN-valued transfer entries rather than an error. -/
theorem parseInt_amount_truncation :
    (∀ ds rest fromA toA fp : String,
      ds.data ≠ [] → (∀ c ∈ ds.data, c.isDigit = true) →
      restBlocked rest.data = true →
      parseIntJS (ds ++ rest) = some (decValue ds.data) ∧
      createHbarTransferTransaction fromA toA fp (ds ++ rest) =
        createHbarTransferTransaction fromA toA fp ds) ∧
    (∀ s fromA toA fp : String, leadingNonNumeric s.data = true →
      parseIntJS s = none ∧
      (createHbarTransferTransaction fromA toA fp s).hbarTransfers =
        [⟨fromA, none⟩, ⟨toA, none⟩]) := by
  constructor
  · intro ds rest fromA toA fp hne hd hr
    have hp : parseIntJS (ds ++ rest) = some (decValue ds.data) := by
      unfold parseIntJS
      rw [String.data_append]
      exact parseIntChars_digit_block ds.data rest.data hne hd (Or.inr hr)
    have hp2 : parseIntJS ds = some (decValue ds.data) := by
      unfold parseIntJS
      have := parseIntChars_digit_block ds.data [] hne hd (Or.inl rfl)
      simpa using this
    refine ⟨hp, ?_⟩
    unfold createHbarTransferTransaction
    rw [hp, hp2]
  · intro s fromA toA fp h
    have hp : parseIntJS s = none := by
      unfold parseIntJS
      cases hs : s.data with
      | nil => rw [hs] at h; cases h
      | cons c t => exact parseIntChars_nonnumeric c t (hs ▸ h)
    exact ⟨hp, by simp [createHbarTransferTransaction, hp, jsNeg]⟩

/-- Witness for C10: `"100abc"` builds a transfer of 100, `"1.9"` one
of 1, and `"abc"` builds NaN entries. -/
theorem parseInt_amount_truncation_witness :
    parseIntJS ("100" ++ "abc") = some 100 ∧
    parseIntJS ("1" ++ ".9") = some 1 ∧
    parseIntJS "abc" = none ∧
    (createHbarTransferTransaction "0.0.7" "0.0.2" "0.0.9" "abc").hbarTransfers =
      [⟨"0.0.7", none⟩, ⟨"0.0.2", none⟩] :=
  have h := parseInt_amount_truncation
  ⟨(h.1 "100" "abc" "0.0.7" "0.0.2" "0.0.9" (by decide) (by decide) (by decide)).1.trans
      (by decide),
   (h.1 "1" ".9" "0.0.7" "0.0.2" "0.0.9" (by decide) (by decide) (by decide)).1.trans
      (by decide),
   (h.2 "abc" "0.0.7" "0.0.2" "0.0.9" (by decide)).1,
   (h.2 "abc" "0.0.7" "0.0.2" "0.0.9" (by decide)).2⟩

/-- In every run of the liquidity payment handler, a `respond`
callback only occurs after the settle round-trip was issued. -/
theorem liquidity_respond_ordered (env : LiqEnv) :
    respondAfterSettleAux false (liquidityHandlePayment env) = true := by
  unfold liquidityHandlePayment
  (repeat' split) <;> rfl

/-- The `respond` callbacks of a run: exactly one, carrying the settle
transaction id and `readyForQuery = true`, if settlement succeeded;
none otherwise. -/
theorem liquidity_respond_calls (env : LiqEnv) :
    respondCalls (liquidityHandlePayment env) =
      (if settlementSucceeded env then
        [LEffect.respond "completed" (settleTransactionOf env)
          ("Payment settled successfully. Transaction: " ++ settleTransactionOf env) true]
      else []) := by
  unfold liquidityHandlePayment settlementSucceeded settleTransactionOf
  (repeat' split) <;> simp_all [respondCalls, isRespond]

/-- C8: the consuming feature is called back exactly when settlement
reported success, with `paymentStatus = "completed"`, the settlement
transaction identifier, a message, and `readyForQuery = true`; the
callback occurs only after the settle round-trip, and under the
spec-modelled settle contract its transaction identifier is
non-empty. -/
theorem gated_callback_contract (env : LiqEnv) :
    respondAfterSettleAux false (liquidityHandlePayment env) = true ∧
    (respondCalls (liquidityHandlePayment env) =
      if settlementSucceeded env then
        [LEffect.respond "completed" (settleTransactionOf env)
          ("Payment settled successfully. Transaction: " ++ settleTransactionOf env) true]
      else []) ∧
    (∀ sd : SettleResp, env.settleResp = HttpResp.ok sd → SettleRespMeetsSpec sd →
      ∀ ps t m rq, LEffect.respond ps t m rq ∈ liquidityHandlePayment env →
        ps = "completed" ∧ rq = true ∧ t ≠ "") := by
  refine ⟨liquidity_respond_ordered env, liquidity_respond_calls env, ?_⟩
  intro sd hsd hspec ps t m rq hmem
  have hmem' : LEffect.respond ps t m rq ∈ respondCalls (liquidityHandlePayment env) := by
    simp [respondCalls, List.mem_filter, hmem, isRespond]
  rw [liquidity_respond_calls env] at hmem'
  by_cases hsucc : settlementSucceeded env = true
  · rw [if_pos hsucc] at hmem'
    simp at hmem'
    obtain ⟨hps, ht, hm, hrq⟩ := hmem'
    refine ⟨hps, hrq, ?_⟩
    have hsu : sd.success = true := by
      unfold settlementSucceeded at hsucc
      simp only [Bool.and_eq_true] at hsucc
      have := hsucc.2
      rw [hsd] at this
      exact this
    have hne := hspec hsu
    rw [ht]
    simpa [settleTransactionOf, hsd] using hne
  · rw [if_neg hsucc] at hmem'
    simp at hmem'

/-- Witness for C8: a fully successful run issues the callback with
the settlement transaction id after the settle call. -/
theorem gated_callback_contract_witness :
    (({ authOk := true, payerAccountId := "0.0.7", payToAccountId := "0.0.9",
        facilitatorAccountId := "0.0.9", acctOk := fun _ => true,
        createResp := HttpResp.ok (), verifyResp := HttpResp.ok ⟨true, none⟩,
        settleResp := HttpResp.ok ⟨true, "0.0.9@1700000000.1", none⟩ } : LiqEnv).settleResp =
      HttpResp.ok ⟨true, "0.0.9@1700000000.1", none⟩) ∧
    LEffect.respond "completed" "0.0.9@1700000000.1"
        ("Payment settled successfully. Transaction: " ++ "0.0.9@1700000000.1") true ∈
      liquidityHandlePayment
        { authOk := true, payerAccountId := "0.0.7", payToAccountId := "0.0.9",
          facilitatorAccountId := "0.0.9", acctOk := fun _ => true,
          createResp := HttpResp.ok (), verifyResp := HttpResp.ok ⟨true, none⟩,
          settleResp := HttpResp.ok ⟨true, "0.0.9@1700000000.1", none⟩ } ∧
    ("completed" = "completed" ∧ true = true ∧ "0.0.9@1700000000.1" ≠ "") :=
  ⟨rfl, by decide,
   (gated_callback_contract
     { authOk := true, payerAccountId := "0.0.7", payToAccountId := "0.0.9",
       facilitatorAccountId := "0.0.9", acctOk := fun _ => true,
       createResp := HttpResp.ok (), verifyResp := HttpResp.ok ⟨true, none⟩,
       settleResp := HttpResp.ok ⟨true, "0.0.9@1700000000.1", none⟩ }).2.2
     ⟨true, "0.0.9@1700000000.1", none⟩ rfl (fun _ => by decide)
     "completed" "0.0.9@1700000000.1"
     ("Payment settled successfully. Transaction: " ++ "0.0.9@1700000000.1") true
     (by decide)⟩

/-- C4: on a request carrying the full wallet triple, when address
recovery from (signedMessage, walletSignature) yields `r`, the route
fails with the signature-mismatch 400 and returns no payload exactly
when `r` does not case-insensitively equal the declared wallet address;
when it does match, the signature-mismatch error is never produced. -/
theorem wallet_signature_mismatch_iff (env : RouteEnv) (req : CreateRequest)
    (pr : PaymentRequirements) (r : String)
    (hpr : req.paymentRequirements = some pr)
    (hacct : req.payerAccountId.isEmpty = false)
    (htriple : (truthy req.walletSignature && truthy req.walletAddress &&
      truthy req.signedMessage) = true)
    (hrec : env.recoverAddress (req.signedMessage.getD "") (req.walletSignature.getD "") =
      some r) :
    (jsToLower r ≠ jsToLower (req.walletAddress.getD "") →
      createPayloadRoute env req =
        ⟨RouteResult.clientError sigMismatchMsg, false, false, none⟩) ∧
    (jsToLower r = jsToLower (req.walletAddress.getD "") →
      (createPayloadRoute env req).result ≠ RouteResult.clientError sigMismatchMsg) := by
  constructor
  · intro hne
    unfold createPayloadRoute
    rw [hpr]
    simp [hacct, htriple, hrec, hne]
  · intro heq
    unfold createPayloadRoute
    rw [hpr]
    simp only [hacct, htriple, hrec, heq, Bool.false_eq_true, if_false, if_true]
    exact afterAuth_not_sigMismatch env req pr

/-- Witness for C4: a recovered address differing from the declared one
makes the request fail with the signature-mismatch error. -/
theorem wallet_signature_mismatch_iff_witness :
    jsToLower "0xAB" ≠ jsToLower "0xCD" ∧
    createPayloadRoute sampleEnv
      { bareReq with walletSignature := some "sig", walletAddress := some "0xCD",
                     signedMessage := some "msg" } =
      ⟨RouteResult.clientError sigMismatchMsg, false, false, none⟩ :=
  ⟨by decide,
   (wallet_signature_mismatch_iff sampleEnv
     { bareReq with walletSignature := some "sig", walletAddress := some "0xCD",
                    signedMessage := some "msg" }
     samplePr "0xAB" rfl rfl (by decide) rfl).1 (by decide)⟩

/-- Witness for C9: with a private key present and no wallet material,
the facilitator key is not read and the payer path is selected. -/
theorem facilitatorKey_only_after_wallet_verification_witness :
    truthy (some "4f") = true ∧
    (createPayloadRoute sampleEnv
      { bareReq with payerPrivateKey := some "4f" }).facilitatorKeyRead = false ∧
    (createPayloadRoute sampleEnv
      { bareReq with payerPrivateKey := some "4f" }).signingSource ≠
      some SigSource.facilitatorKey :=
  have h := (facilitatorKey_only_after_wallet_verification sampleEnv
    { bareReq with payerPrivateKey := some "4f" }).2 (by decide)
  ⟨by decide, h.1, h.2⟩

end Agent101
